import Mathlib

/-!
A verification development for the sql-tool server (src/sql_tool/server.py).

The file shallowly embeds the contract layer of the server: the Python
runtime values that flow through query results and column dictionaries,
the value formatter used by the query executor, the statement
classifier, the query-execution control flow with its exception
handling, and the schema-description formatter together with a model of
the introspector operations it calls.

Modelling conventions:
  - Python values appearing in rows and dicts are the inductive PyVal;
    machine details of numbers are irrelevant to the claims, so ints are
    Int.  Python str.upper and str.strip are modelled on their ASCII
    fragment, which covers SQL statement text.
  - The SQLAlchemy engine, connection, statement execution and fetch
    are external effects.  Their behaviour for one execute_query call
    (for the given query and params) is captured by the Driver record:
    each stage either raises an exception carrying a message or
    succeeds; a successful fetch yields column names and raw rows.
    Engine construction itself is lazy in SQLAlchemy and performs no
    driver work, and the process only reaches tool calls after DB_INFO
    was computed successfully at startup, so it is modelled as
    non-failing.
  - A Python dict result is an ordered association list, faithful to
    dict literal key order.
  - An exception propagating out of a Python function is the error
    variant of Except; a function returning a plain value that never
    raises is total.
-/

namespace SqlTool

/-- Python runtime values as they appear in database rows and in the
column dictionaries returned by the introspector. -/
inductive PyVal where
  | none : PyVal
  | str : String → PyVal
  | int : Int → PyVal
  | bool : Bool → PyVal
  | date (year month day : Nat) : PyVal
  | datetime (year month day hour minute second : Nat) : PyVal
deriving DecidableEq

/-- Zero-pad a numeral to two digits, as in Python date formatting. -/
def pad2 (n : Nat) : String :=
  if n < 10 then ("0") ++ toString n else toString n

/-- Zero-pad a numeral to four digits, as in Python date formatting. -/
def pad4 (n : Nat) : String :=
  if n < 10 then ("000") ++ toString n
  else if n < 100 then ("00") ++ toString n
  else if n < 1000 then ("0") ++ toString n
  else toString n

/-- Python date.isoformat(): YYYY-MM-DD. -/
def isoDate (y m d : Nat) : String :=
  pad4 y ++ ("-") ++ pad2 m ++ ("-") ++ pad2 d

/-- HH:MM:SS rendering shared by datetime formatting. -/
def isoTime (hh mi ss : Nat) : String :=
  pad2 hh ++ (":") ++ pad2 mi ++ (":") ++ pad2 ss

/-- Python datetime.isoformat() without fractional seconds:
YYYY-MM-DDTHH:MM:SS. -/
def isoDateTime (y mo d hh mi ss : Nat) : String :=
  isoDate y mo d ++ ("T") ++ isoTime hh mi ss

/-- Python str() on the modelled values.  str(datetime) uses a space
separator; str(date) coincides with isoformat. -/
def pyStr : PyVal → String
  | .none => "None"
  | .str s => s
  | .int n => toString n
  | .bool b => if b then ("True") else ("False")
  | .date y m d => isoDate y m d
  | .datetime y mo d hh mi ss => isoDate y mo d ++ (" ") ++ isoTime hh mi ss

/-- Python truthiness of the modelled values, as used by the column
formatter's item filter. -/
def PyVal.truthy : PyVal → Bool
  | .none => false
  | .str s => !(s == "")
  | .int n => !(n == 0)
  | .bool b => b
  | .date _ _ _ => true
  | .datetime _ _ _ _ _ _ => true

/-- execute_query.format_value: None becomes the literal token NULL,
datetime and date become their isoformat, everything else its str(). -/
def format_value : PyVal → String
  | .none => "NULL"
  | .date y m d => isoDate y m d
  | .datetime y mo d hh mi ss => isoDateTime y mo d hh mi ss
  | .str s => s
  | .int n => toString n
  | .bool b => if b then ("True") else ("False")

/-- Python str.strip's whitespace set (ASCII fragment). -/
def pySpace (c : Char) : Bool :=
  c == ' ' || c == '\t' || c == '\n' || c == '\r' || c == '\x0b' || c == '\x0c'

/-- query.strip().upper() as a character list: strip whitespace from
both ends, then uppercase (ASCII fragment of Python str.upper). -/
def pyStripUpper (q : String) : List Char :=
  (((q.data.dropWhile pySpace).reverse.dropWhile pySpace).reverse).map Char.toUpper

/-- The executor's statement classifier:
query.strip().upper().startswith("SELECT"). -/
def isSelect (q : String) : Bool :=
  List.isPrefixOf (("SELECT").data) (pyStripUpper q)

/-- Behaviour of the engine/connection for one execute_query call, with
the query and params already fixed: connecting, executing the statement,
and fetching rows plus column names each either raises (carrying the
exception message) or succeeds. -/
structure Driver where
  connect : Except String Unit
  execStmt : Except String Unit
  fetchAll : Except String (List String × List (List PyVal))

/-- A value inside the result dict: a scalar, a list of scalars
(columns), or a list of rows (rows). -/
inductive ResVal where
  | v : PyVal → ResVal
  | vlist : List PyVal → ResVal
  | vtable : List (List PyVal) → ResVal
deriving DecidableEq

/-- A Python dict result, as an ordered association list. -/
abbrev Dict := List (String × ResVal)

/-- execute_query: connect, execute, and (only for SELECT-classified
queries) fetch, inside one try/except that converts any exception into
the error dict; a SELECT yields the columns/rows dict with every cell
formatted by format_value, any other statement yields the status dict. -/
def execute_query (query : String) (db : Driver) : Dict :=
  match db.connect with
  | .error e => [("error", ResVal.v (PyVal.str e))]
  | .ok _ =>
    match db.execStmt with
    | .error e => [("error", ResVal.v (PyVal.str e))]
    | .ok _ =>
      if isSelect query then
        match db.fetchAll with
        | .error e => [("error", ResVal.v (PyVal.str e))]
        | .ok (cols, rows) =>
          [("columns", ResVal.vlist (cols.map PyVal.str)),
           ("rows", ResVal.vtable (rows.map (fun row => row.map (fun val => PyVal.str (format_value val)))))]
      else
        [("status", ResVal.v (PyVal.str ("ok")))]

/-- The configured truncation budget, at its default: the code reads
EXECUTE_QUERY_MAX_CHARS from the environment with default 4000. -/
def EXECUTE_QUERY_MAX_CHARS : Nat := 4000

/-- Character count of a result value's payload strings. -/
def ResVal.chars : ResVal → Nat
  | .v p => (pyStr p).length
  | .vlist l => (l.map (fun p => (pyStr p).length)).sum
  | .vtable t => (t.map (fun row => (row.map (fun p => (pyStr p).length)).sum)).sum

/-- Character count of a whole result dict: keys plus payloads. -/
def dictChars (d : Dict) : Nat :=
  (d.map (fun kv => kv.1.length + kv.2.chars)).sum

/-! ### Schema introspection model -/

/-- One column dictionary as returned by inspector.get_columns: the
name and type entries (popped first by the formatter) plus the
remaining dict items in their insertion order, such as nullable,
default, autoincrement, and possibly comment. -/
structure ColumnInfo where
  name : String
  type : String
  items : List (String × PyVal)
deriving DecidableEq

/-- One foreign key dictionary as returned by
inspector.get_foreign_keys. -/
structure FKInfo where
  constrained_columns : List String
  referred_table : String
  referred_columns : List String
deriving DecidableEq

/-- Introspection data of one existing table: its columns, foreign
keys, and the constrained_columns of its primary-key constraint. -/
structure TableInfo where
  columns : List ColumnInfo
  foreign_keys : List FKInfo
  pk_columns : List String
deriving DecidableEq

/-- The visible database schema: table names with their introspection
data, in the order inspector.get_table_names reports them. -/
abbrev Schema := List (String × TableInfo)

/-- The exception SQLAlchemy reflection raises for an unknown table:
NoSuchTableError carrying the table name. -/
inductive DBException where
  | noSuchTable : String → DBException
deriving DecidableEq

def lookupTable (schema : Schema) (t : String) : Option TableInfo :=
  List.lookup t schema

/-- inspector.get_table_names. -/
def get_table_names (schema : Schema) : List String :=
  schema.map Prod.fst

/-- inspector.get_columns: raises NoSuchTableError for an unknown
table. -/
def get_columns (schema : Schema) (t : String) : Except DBException (List ColumnInfo) :=
  match lookupTable schema t with
  | some ti => .ok ti.columns
  | Option.none => .error (.noSuchTable t)

/-- inspector.get_foreign_keys: raises NoSuchTableError for an unknown
table. -/
def get_foreign_keys (schema : Schema) (t : String) : Except DBException (List FKInfo) :=
  match lookupTable schema t with
  | some ti => .ok ti.foreign_keys
  | Option.none => .error (.noSuchTable t)

/-- inspector.get_pk_constraint(...)["constrained_columns"]: raises
NoSuchTableError for an unknown table. -/
def get_pk_constraint (schema : Schema) (t : String) : Except DBException (List String) :=
  match lookupTable schema t with
  | some ti => .ok ti.pk_columns
  | Option.none => .error (.noSuchTable t)

def commaSep : String := ", "

def newline : String := "\n"

/-- all_table_names: join the table names with a comma separator. -/
def all_table_names (schema : Schema) : String :=
  String.intercalate commaSep (get_table_names schema)

/-- Python substring containment q in x over character lists. -/
def infixB (q : List Char) : List Char → Bool
  | [] => q.isEmpty
  | c :: cs => List.isPrefixOf q (c :: cs) || infixB q cs

/-- Python: q in x, for strings. -/
def strContains (x q : String) : Bool :=
  infixB q.data x.data

/-- filter_table_names: join those table names containing q. -/
def filter_table_names (schema : Schema) (q : String) : String :=
  String.intercalate commaSep ((get_table_names schema).filter (fun x => strContains x q))

/-- The show_key_only set of schema_definitions.format. -/
def show_key_only : List String := ["nullable", "autoincrement"]

/-- One remaining column-dict item rendered as in
schema_definitions.format: bare key for the show_key_only keys,
otherwise key=value. -/
def renderItem (kv : String × PyVal) : String :=
  if kv.1 ∈ show_key_only then kv.1 else kv.1 ++ ("=") ++ pyStr kv.2

/-- The column-dict items that survive to rendering: comment is deleted
first, then only truthy values are kept. -/
def renderedItems (col : ColumnInfo) : List (String × PyVal) :=
  (col.items.filter (fun kv => !(kv.1 == "comment"))).filter (fun kv => kv.2.truthy)

/-- The comma-joined parts of one column line: the primary key marker
when the column name is in the primary-key set, then the type, then the
rendered remaining items. -/
def columnParts (pks : List String) (col : ColumnInfo) : List String :=
  (if col.name ∈ pks then [("primary key")] else [])
    ++ [col.type]
    ++ (renderedItems col).map renderItem

/-- One column line of schema_definitions.format. -/
def formatColumn (pks : List String) (col : ColumnInfo) : String :=
  ("    ") ++ col.name ++ (": ") ++ String.intercalate commaSep (columnParts pks col)

/-- One relationship line of schema_definitions.format. -/
def formatFK (fk : FKInfo) : String :=
  ("      ") ++ String.intercalate commaSep fk.constrained_columns ++ (" -> ")
    ++ fk.referred_table ++ (".") ++ String.intercalate commaSep fk.referred_columns

/-- The relationship block: empty when there are no foreign keys. -/
def fkSection (fks : List FKInfo) : List String :=
  if fks.isEmpty then [] else ["", "    Relationships:"] ++ fks.map formatFK

/-- schema_definitions.format for one table: get_columns,
get_foreign_keys and get_pk_constraint in order, any NoSuchTableError
propagating, then the joined table block. -/
def formatTable (schema : Schema) (table_name : String) : Except DBException String :=
  match get_columns schema table_name with
  | .error e => .error e
  | .ok columns =>
    match get_foreign_keys schema table_name with
    | .error e => .error e
    | .ok foreign_keys =>
      match get_pk_constraint schema table_name with
      | .error e => .error e
      | .ok pks =>
        .ok (String.intercalate newline
          ((table_name ++ (":")) :: (columns.map (formatColumn pks) ++ fkSection foreign_keys)))

/-- The generator feeding the newline join of schema_definitions: each
table formatted in order, the first exception propagating. -/
def formatTables (schema : Schema) : List String → Except DBException (List String)
  | [] => .ok []
  | t :: rest =>
    match formatTable schema t with
    | .error e => .error e
    | .ok s =>
      match formatTables schema rest with
      | .error e => .error e
      | .ok ss => .ok (s :: ss)

/-- schema_definitions: the newline join of the per-table blocks; no
exception handling of its own, so a NoSuchTableError escapes. -/
def schema_definitions (schema : Schema) (table_names : List String) : Except DBException String :=
  match formatTables schema table_names with
  | .error e => .error e
  | .ok parts => .ok (String.intercalate newline parts)

/-- Modelled from the spec's words, for the C4 comparison only: the
first whitespace-delimited token of the trimmed, uppercased query. -/
def specFirstTokenUpper (q : String) : List Char :=
  (pyStripUpper q).takeWhile (fun c => !(pySpace c))

/-! ### Fixtures -/

/-- A driver call on which every stage succeeds, fetching the given
columns and rows. -/
def okDriver (cols : List String) (rows : List (List PyVal)) : Driver :=
  { connect := .ok (), execStmt := .ok (), fetchAll := .ok (cols, rows) }

/-- A driver call whose connect stage raises. -/
def failDriver : Driver :=
  { connect := .error ("boom"), execStmt := .ok (), fetchAll := .ok ([], []) }

def bigQuery : String := "SELECT c FROM t"

/-- A 4100-character cell value, exceeding the default budget. -/
def bigStr : String := String.mk (List.replicate 4100 'x')

def bigDriver : Driver := okDriver [("c")] [[PyVal.str bigStr]]

def idColumn : ColumnInfo :=
  { name := "id", type := "INTEGER",
    items := [("nullable", PyVal.bool false), ("default", PyVal.none),
              ("autoincrement", PyVal.bool true)] }

def usersTable : TableInfo :=
  { columns := [idColumn], foreign_keys := [], pk_columns := ["id"] }

def demoSchema : Schema := [("users", usersTable)]

/-! ### Helper lemmas -/

/-- The Bool containment test agrees with List.IsInfix. -/
theorem infixB_iff (q : List Char) : ∀ l : List Char, infixB q l = true ↔ List.IsInfix q l := by
  intro l
  induction l with
  | nil =>
    simp [infixB, List.isEmpty_iff]
  | cons c cs ih =>
    rw [ List.infix_cons_iff]
    simp [infixB, ih]

/-- schema_definitions propagates exactly the exceptions of its
generator. -/
theorem schema_definitions_error_iff (schema : Schema) (table_names : List String)
    (e : DBException) :
    schema_definitions schema table_names = Except.error e
      ↔ formatTables schema table_names = Except.error e := by
  cases h : formatTables schema table_names <;> simp [schema_definitions, h]

/-- A missing table makes formatTable raise NoSuchTableError for it. -/
theorem formatTable_error_of_missing (schema : Schema) (t : String)
    (h : lookupTable schema t = Option.none) :
    formatTable schema t = Except.error (DBException.noSuchTable t) := by
  simp [formatTable, get_columns, h]

/-- A present table formats without raising. -/
theorem formatTable_ok_of_present (schema : Schema) (t : String) (ti : TableInfo)
    (h : lookupTable schema t = some ti) :
    ∃ s, formatTable schema t = Except.ok s := by
  simp [formatTable, get_columns, get_foreign_keys, get_pk_constraint, h]

/-- No rendered column-dict item reads as the primary key marker: the
show_key_only keys differ from it and every key=value rendering
contains an equals sign, which the marker does not. -/
theorem renderItem_ne_marker (kv : String × PyVal) : renderItem kv ≠ ("primary key") := by
  unfold renderItem
  by_cases h : kv.1 ∈ show_key_only
  · rw [if_pos h]
    simp [show_key_only] at h
    rcases h with h | h <;> rw [h] <;> decide
  · rw [if_neg h]
    intro hEq
    have hin : ('=') ∈ (kv.1 ++ ("=") ++ pyStr kv.2).data := by
      rw [String.data_append, String.data_append]
      exact List.mem_append.mpr (Or.inl (List.mem_append.mpr (Or.inr (by decide))))
    rw [hEq] at hin
    exact absurd hin (by decide)

/-! ### Claims -/

/-- C1 (code_bug evidence): at the default budget of 4000 characters, a
SELECT result holding one 4100-character cell comes back whole —
execute_query returns the full formatted rows, the payload exceeds
EXECUTE_QUERY_MAX_CHARS, and the result keys are exactly columns and
rows, with no truncation flag or marker.  The configured budget is read
but never applied by execute_query, although the tool description
promises truncation after that many characters. -/
theorem execute_query_returns_oversized_result_untruncated :
    execute_query bigQuery bigDriver
      = [("columns", ResVal.vlist [PyVal.str ("c")]),
         ("rows", ResVal.vtable [[PyVal.str bigStr]])]
    ∧ EXECUTE_QUERY_MAX_CHARS < dictChars (execute_query bigQuery bigDriver)
    ∧ (execute_query bigQuery bigDriver).map Prod.fst = [("columns"), ("rows")] := by
  have hq : isSelect bigQuery = true := by decide
  have h1 : execute_query bigQuery bigDriver
      = [("columns", ResVal.vlist [PyVal.str ("c")]),
         ("rows", ResVal.vtable [[PyVal.str bigStr]])] := by
    simp [execute_query, bigDriver, okDriver, hq, format_value]
  refine ⟨h1, ?_, by rw [h1]; rfl⟩
  rw [h1]
  have hlen : bigStr.length = 4100 := by
    rw [bigStr, String.length_mk, List.length_replicate]
  simp [dictChars, ResVal.chars, pyStr, EXECUTE_QUERY_MAX_CHARS, hlen]
  decide

/-- C2 (counterexample): with a schema containing only the users table,
requesting the table missing leaves schema_definitions with the raw
NoSuchTableError escaping the call boundary — the call's outcome is the
exception variant naming the table, not a caught, error-shaped return
value. -/
theorem schema_definitions_missing_table_raises :
    schema_definitions demoSchema [("missing")]
      = Except.error (DBException.noSuchTable ("missing")) := rfl

/-- C2 (amended): whenever some requested table name is missing from
the schema, schema_definitions raises NoSuchTableError naming a missing
requested table; the exception propagates out of the call uncaught
rather than being converted into an error-shaped result. -/
theorem schema_definitions_raises_on_missing_table (schema : Schema) (table_names : List String)
    (h : ∃ t ∈ table_names, lookupTable schema t = Option.none) :
    ∃ t ∈ table_names, lookupTable schema t = Option.none
      ∧ schema_definitions schema table_names = Except.error (DBException.noSuchTable t) := by
  induction table_names with
  | nil => simp at h
  | cons t rest ih =>
    by_cases ht : lookupTable schema t = Option.none
    · refine ⟨t, List.mem_cons_self t rest, ht, ?_⟩
      have he := formatTable_error_of_missing schema t ht
      simp [schema_definitions, formatTables, he]
    · obtain ⟨u, hu, hmiss⟩ := h
      have hur : u ∈ rest := by
        rcases List.mem_cons.mp hu with h1 | h1
        · subst h1; exact absurd hmiss ht
        · exact h1
      obtain ⟨w, hw, hwm, heq⟩ := ih ⟨u, hur, hmiss⟩
      refine ⟨w, List.mem_cons_of_mem t hw, hwm, ?_⟩
      obtain ⟨ti, hti⟩ : ∃ ti, lookupTable schema t = some ti := by
        cases hl : lookupTable schema t with
        | none => exact absurd hl ht
        | some ti => exact ⟨ti, rfl⟩
      obtain ⟨s, hs⟩ := formatTable_ok_of_present schema t ti hti
      have hrest : formatTables schema rest = Except.error (DBException.noSuchTable w) :=
        (schema_definitions_error_iff schema rest _).mp heq
      simp [schema_definitions, formatTables, hs, hrest]

/-- C2 witness: the amended theorem applied to the demo schema and the
request for the one absent table. -/
theorem schema_definitions_raises_witness :
    schema_definitions demoSchema [("absent")]
      = Except.error (DBException.noSuchTable ("absent")) := by
  obtain ⟨t, htm, hmiss, heq⟩ := schema_definitions_raises_on_missing_table demoSchema
      [("absent")] ⟨("absent"), by decide, by rfl⟩
  have ht : t = ("absent") := List.mem_singleton.mp htm
  rw [ht] at heq
  exact heq

/-- C3: every driver exception at the connect, execute, or fetch stage
inside execute_query is caught and converted into the error-shaped dict
carrying the exception message; no stage exception escapes the call. -/
theorem execute_query_converts_driver_errors (query : String) (db : Driver) (e : String)
    (h : db.connect = Except.error e
      ∨ (db.connect = Except.ok () ∧ db.execStmt = Except.error e)
      ∨ (db.connect = Except.ok () ∧ db.execStmt = Except.ok () ∧ isSelect query = true
          ∧ db.fetchAll = Except.error e)) :
    execute_query query db = [("error", ResVal.v (PyVal.str e))] := by
  rcases h with h1 | ⟨h1, h2⟩ | ⟨h1, h2, h3, h4⟩
  · simp [execute_query, h1]
  · simp [execute_query, h1, h2]
  · simp [execute_query, h1, h2, h3, h4]

/-- C3 witness: a connect-stage exception on a concrete call becomes
the error dict. -/
theorem execute_query_converts_driver_errors_witness :
    execute_query ("SELECT 1") failDriver = [("error", ResVal.v (PyVal.str ("boom")))] :=
  execute_query_converts_driver_errors ("SELECT 1") failDriver ("boom") (Or.inl rfl)

/-- C4 (counterexample): the query SELECTED 1 has first token SELECTED,
not SELECT, yet the classifier accepts it — startswith is a prefix
test, not a first-token comparison — and execute_query takes the read
path, returning the columns and rows shape where the claim requires the
status acknowledgment for a first token other than SELECT. -/
theorem select_prefix_is_not_first_token :
    isSelect ("SELECTED 1") = true
    ∧ specFirstTokenUpper ("SELECTED 1") ≠ ("SELECT").data
    ∧ (execute_query ("SELECTED 1") (okDriver [("x")] [])).map Prod.fst
        = [("columns"), ("rows")] := by
  refine ⟨by decide, by decide, by decide⟩

/-- C4 (amended): execute_query classifies a query by stripping
whitespace, uppercasing, and testing for the prefix SELECT: whenever
that prefix test succeeds, the read path runs and returns the fetched
column names with the rows mapped through format_value; whenever it
fails, the result is the status ok acknowledgment whatever the fetch
stage would do — rows are never fetched on that path. -/
theorem execute_query_prefix_classification (query : String) (db : Driver)
    (cols : List String) (rows : List (List PyVal))
    (hc : db.connect = Except.ok ()) (he : db.execStmt = Except.ok ()) :
    (isSelect query = true → db.fetchAll = Except.ok (cols, rows) →
      execute_query query db
        = [("columns", ResVal.vlist (cols.map PyVal.str)),
           ("rows", ResVal.vtable (rows.map (fun row => row.map (fun v => PyVal.str (format_value v)))))])
    ∧ (isSelect query = false →
      execute_query query db = [("status", ResVal.v (PyVal.str ("ok")))]) := by
  constructor
  · intro hs hf
    simp [execute_query, hc, he, hs, hf]
  · intro hs
    simp [execute_query, hc, he, hs]

/-- C4 witness: a concrete INSERT statement is classified as a write
and acknowledged with status ok. -/
theorem execute_query_classifies_witness :
    execute_query ("INSERT INTO t VALUES (1)") (okDriver [] [])
      = [("status", ResVal.v (PyVal.str ("ok")))] :=
  (execute_query_prefix_classification ("INSERT INTO t VALUES (1)") (okDriver [] [])
    [] [] rfl rfl).2 (by decide)

/-- C5: every execute_query result is exactly one of the three shapes —
its keys are columns and rows together, or status alone, or error
alone — never a partial mix of the shapes' keys. -/
theorem execute_query_exactly_one_shape (query : String) (db : Driver) :
    (execute_query query db).map Prod.fst = [("columns"), ("rows")]
    ∨ (execute_query query db).map Prod.fst = [("status")]
    ∨ (execute_query query db).map Prod.fst = [("error")] := by
  cases hc : db.connect with
  | error e => right; right; simp [execute_query, hc]
  | ok u =>
    cases he : db.execStmt with
    | error e => right; right; simp [execute_query, hc, he]
    | ok v =>
      cases hs : isSelect query with
      | false => right; left; simp [execute_query, hc, he, hs]
      | true =>
        cases hf : db.fetchAll with
        | error e => right; right; simp [execute_query, hc, he, hs, hf]
        | ok p =>
          obtain ⟨cols, rows⟩ := p
          left; simp [execute_query, hc, he, hs, hf]

/-- C6: filter_table_names joins exactly the filtered table-name list:
that list is a Sublist (a subsequence, order preserved) of the full
get_table_names list, membership in it is membership in the full list
together with containment of q, the Bool containment test coincides
with List.IsInfix on the character lists (hence case-sensitive simple
containment), and all_table_names joins the same full list. -/
theorem filter_table_names_subsequence (schema : Schema) (q : String) :
    filter_table_names schema q
      = String.intercalate commaSep ((get_table_names schema).filter (fun x => strContains x q))
    ∧ List.Sublist ((get_table_names schema).filter (fun x => strContains x q))
        (get_table_names schema)
    ∧ (∀ x, x ∈ (get_table_names schema).filter (fun x => strContains x q)
        ↔ x ∈ get_table_names schema ∧ strContains x q = true)
    ∧ (∀ x : String, strContains x q = true ↔ List.IsInfix q.data x.data)
    ∧ all_table_names schema = String.intercalate commaSep (get_table_names schema) := by
  refine ⟨rfl, List.filter_sublist _, ?_, ?_, rfl⟩
  · intro x
    simp [List.mem_filter]
  · intro x
    exact infixB_iff q.data x.data

/-- C7: format_value maps None to the literal token NULL, date and
datetime values to their ISO-8601 rendering, and every other scalar to
its Python string form; and the read result of execute_query applies
exactly this formatter to every value of every returned row. -/
theorem format_value_contract :
    format_value PyVal.none = ("NULL")
    ∧ (∀ y m d, format_value (PyVal.date y m d) = isoDate y m d)
    ∧ (∀ y mo d hh mi ss, format_value (PyVal.datetime y mo d hh mi ss) = isoDateTime y mo d hh mi ss)
    ∧ (∀ s, format_value (PyVal.str s) = s)
    ∧ (∀ n, format_value (PyVal.int n) = pyStr (PyVal.int n))
    ∧ (∀ b, format_value (PyVal.bool b) = pyStr (PyVal.bool b))
    ∧ (∀ query cols rows, isSelect query = true →
        execute_query query (okDriver cols rows)
          = [("columns", ResVal.vlist (cols.map PyVal.str)),
             ("rows", ResVal.vtable (rows.map (fun row => row.map (fun v => PyVal.str (format_value v)))))]) := by
  refine ⟨rfl, fun y m d => rfl, fun y mo d hh mi ss => rfl, fun s => rfl,
    fun n => rfl, fun b => rfl, ?_⟩
  intro query cols rows hs
  simp [execute_query, okDriver, hs]

/-- C7 witness: a NULL and a date cell of a concrete read, formatted. -/
theorem format_value_contract_witness :
    execute_query ("SELECT a") (okDriver [("a")] [[PyVal.none, PyVal.date 2024 5 7]])
      = [("columns", ResVal.vlist [PyVal.str ("a")]),
         ("rows", ResVal.vtable [[PyVal.str ("NULL"), PyVal.str ("2024-05-07")]])] := by
  have h := format_value_contract.2.2.2.2.2.2 ("SELECT a") [("a")]
      [[PyVal.none, PyVal.date 2024 5 7]] (by decide)
  rw [h]
  decide

/-- C8: in a rendered column line, the primary key marker appears among
the parts exactly when the column's name is a member of the table's
primary-key constraint set (for any type text other than the marker
itself, which no SQL type renders as: the other parts are either the
fixed show_key_only keys or key=value items containing an equals
sign). -/
theorem primary_key_mark_iff_membership (pks : List String) (col : ColumnInfo)
    (htype : col.type ≠ ("primary key")) :
    ("primary key") ∈ columnParts pks col ↔ col.name ∈ pks := by
  constructor
  · intro hmem
    unfold columnParts at hmem
    rcases List.mem_append.mp hmem with h1 | h2
    · rcases List.mem_append.mp h1 with ha | hb
      · by_cases hpk : col.name ∈ pks
        · exact hpk
        · rw [if_neg hpk] at ha
          exact absurd ha (List.not_mem_nil _)
      · have hb' : ("primary key") = col.type := List.mem_singleton.mp hb
        exact absurd hb'.symm htype
    · obtain ⟨kv, _, hkv⟩ := List.mem_map.mp h2
      exact absurd hkv (renderItem_ne_marker kv)
  · intro hpk
    unfold columnParts
    exact List.mem_append.mpr (Or.inl (List.mem_append.mpr
      (Or.inl (by rw [if_pos hpk]; exact List.mem_singleton_self _))))

/-- C8 witness: the id column of the demo table, whose name is in the
primary-key set, carries the marker. -/
theorem primary_key_mark_witness :
    ("primary key") ∈ columnParts [("id")] idColumn :=
  (primary_key_mark_iff_membership [("id")] idColumn (by decide)).mpr (by decide)

/-- C9: comment metadata is dropped before rendering — a column line is
unchanged by deleting a comment entry from anywhere in the column dict,
and no rendered item of any column descriptor has the key comment. -/
theorem comment_dropped_from_output (pks : List String) (name ty : String)
    (pre post : List (String × PyVal)) (c : PyVal) :
    columnParts pks (ColumnInfo.mk name ty (pre ++ ("comment", c) :: post))
      = columnParts pks (ColumnInfo.mk name ty (pre ++ post))
    ∧ ∀ col : ColumnInfo, ("comment") ∉ (renderedItems col).map Prod.fst := by
  constructor
  · unfold columnParts renderedItems
    simp [List.filter_append]
  · intro col hmem
    obtain ⟨kv, hkv, hfst⟩ := List.mem_map.mp hmem
    unfold renderedItems at hkv
    have h1 := List.mem_filter.mp hkv
    have h2 := List.mem_filter.mp h1.1
    rw [hfst] at h2
    simp at h2

/-- C10: any rows table inside an execute_query result is the raw
fetched row set mapped elementwise through format_value, so every cell
of every returned row is a string value — never a native null, number,
boolean or date. -/
theorem result_rows_are_strings (query : String) (db : Driver) (kv : String × ResVal)
    (hkv : kv ∈ execute_query query db) (rs : List (List PyVal))
    (hrs : kv.2 = ResVal.vtable rs) :
    (∃ cols rows, db.fetchAll = Except.ok (cols, rows)
      ∧ rs = rows.map (fun row => row.map (fun v => PyVal.str (format_value v))))
    ∧ ∀ row ∈ rs, ∀ cell ∈ row, ∃ s, cell = PyVal.str s := by
  cases hc : db.connect with
  | error e =>
    simp [execute_query, hc] at hkv
    rw [hkv] at hrs
    simp at hrs
  | ok u =>
    cases he : db.execStmt with
    | error e =>
      simp [execute_query, hc, he] at hkv
      rw [hkv] at hrs
      simp at hrs
    | ok v =>
      cases hs : isSelect query with
      | false =>
        simp [execute_query, hc, he, hs] at hkv
        rw [hkv] at hrs
        simp at hrs
      | true =>
        cases hf : db.fetchAll with
        | error e =>
          simp [execute_query, hc, he, hs, hf] at hkv
          rw [hkv] at hrs
          simp at hrs
        | ok p =>
          obtain ⟨cols, rows⟩ := p
          simp [execute_query, hc, he, hs, hf] at hkv
          rcases hkv with hkv | hkv
          · rw [hkv] at hrs
            simp at hrs
          · rw [hkv] at hrs
            simp at hrs
            subst hrs
            constructor
            · exact ⟨cols, rows, rfl, rfl⟩
            · intro row hrow cell hcell
              obtain ⟨row₀, _, hrow₀⟩ := List.mem_map.mp hrow
              rw [← hrow₀] at hcell
              obtain ⟨v₀, _, hv₀⟩ := List.mem_map.mp hcell
              exact ⟨format_value v₀, hv₀.symm⟩

/-- C10 witness: the theorem applied to a concrete read whose raw row
holds a database NULL, whose cell is the string NULL. -/
theorem result_rows_are_strings_witness :
    ∃ s, PyVal.str ("NULL") = PyVal.str s :=
  (result_rows_are_strings ("SELECT a") (okDriver [("a")] [[PyVal.none]])
      ("rows", ResVal.vtable [[PyVal.str ("NULL")]]) (by decide)
      [[PyVal.str ("NULL")]] rfl).2
    [PyVal.str ("NULL")] (by decide) (PyVal.str ("NULL")) (by decide)

end SqlTool
